import Mathlib

/-!
Verification of the Term-Insurance-Classifier backend
(`src/backend/main.py`) against its specification.

Numeric modelling: Python `float` fields are modelled as `ℚ` (the code
only ever compares them), `int` fields as `Int`.  The SQLAlchemy table
of `InsurancePlan` rows is modelled as a `List Plan`.
-/

deriving instance DecidableEq for Except

namespace TermInsurance

/-- A stored catalog record (`InsurancePlan` row / `PlanOut` schema in
`src/backend/main.py`). -/
structure Plan where
  id : Nat
  plan_name : String
  provider : String
  source : String
  sum_assured_min : ℚ
  sum_assured_max : ℚ
  premium_annual : ℚ
  policy_term_min : Int
  policy_term_max : Int
  age_min : Int
  age_max : Int
  claim_settlement_ratio : ℚ
  key_features : String
  source_url : String
  deriving Repr, DecidableEq

/-- The user profile (`RecommendRequest` schema in `src/backend/main.py`). -/
structure RecommendRequest where
  age : Int
  sum_assured : ℚ
  premium_budget : ℚ
  policy_term : Int
  min_csr : ℚ
  deriving Repr, DecidableEq

/-- Pydantic field validation of `RecommendRequest`
(`src/backend/main.py`, lines 110-114). -/
def RecommendRequest.fieldValid (r : RecommendRequest) : Bool :=
  18 ≤ r.age && r.age ≤ 70 && 0 < r.sum_assured && 0 < r.premium_budget &&
  5 ≤ r.policy_term && r.policy_term ≤ 50 && 0 ≤ r.min_csr && r.min_csr ≤ 100

/-- Lowercased character sequence of a string (Python `str.lower()` /
SQL `lower(...)` on the ASCII plan data). -/
def lowerChars (s : String) : List Char :=
  s.data.map Char.toLower

/-- Case-insensitive substring test, modelling SQLAlchemy `ilike("%term%")`. -/
def ilikeContains (hay needle : String) : Bool :=
  decide (lowerChars needle <:+: lowerChars hay)

/-- The optional-filter predicate of `get_plans`
(`src/backend/main.py`, lines 148-168).  Python truthiness: the `source`
and `search` filters apply only when the parameter is a non-empty
string (`if source:`), while `min_csr` applies whenever it is not None
(`if min_csr is not None:`). -/
def matchesFilters (source : Option String) (min_csr : Option ℚ)
    (search : Option String) (p : Plan) : Bool :=
  (match source with
   | none => true
   | some s => if s = "" then true else p.source = s) &&
  (match min_csr with
   | none => true
   | some q => q ≤ p.claim_settlement_ratio) &&
  (match search with
   | none => true
   | some s =>
     if s = "" then true
     else ilikeContains p.plan_name s || ilikeContains p.provider s)

/-- `GET /api/plans` (`get_plans`, `src/backend/main.py` lines 148-168):
apply the optional filters, then order by `claim_settlement_ratio`
descending. -/
def get_plans (db : List Plan) (source : Option String) (min_csr : Option ℚ)
    (search : Option String) : List Plan :=
  List.insertionSort
    (fun a b => b.claim_settlement_ratio ≤ a.claim_settlement_ratio)
    (db.filter (matchesFilters source min_csr search))

/-! ## Recommendation Engine (spec §4.4)

`recommend` in `src/backend/main.py` (lines 171-206) serializes the whole
catalog and hands it to `gemini_analyzer.analyze_plans`; the analyzer module
itself is not under `src/`, so its filtering and sanitization stages are
modelled from the spec below.  The reasoning collaborator is an opaque
function parameter `collab`. -/

/-- Eligibility of one plan for one profile: the five deterministic
constraints of spec §4.4. -/
def eligible (profile : RecommendRequest) (p : Plan) : Bool :=
  p.age_min ≤ profile.age && profile.age ≤ p.age_max &&
  p.sum_assured_min ≤ profile.sum_assured &&
  profile.sum_assured ≤ p.sum_assured_max &&
  p.premium_annual ≤ profile.premium_budget &&
  p.policy_term_min ≤ profile.policy_term &&
  profile.policy_term ≤ p.policy_term_max &&
  profile.min_csr ≤ p.claim_settlement_ratio

/-- The eligible set: the stored plans satisfying all five constraints. -/
def eligibleSet (profile : RecommendRequest) (plans : List Plan) : List Plan :=
  plans.filter (eligible profile)

/-- Typed failures of the Recommendation Engine (spec §7). -/
inductive EngineError
  | NoEligiblePlans
  | AdvisoryError
  deriving Repr, DecidableEq

/-- One entry of the collaborator's ranking. -/
structure RankedEntry where
  plan_name : String
  rationale : String
  deriving Repr, DecidableEq

/-- The raw structured response of the reasoning collaborator. -/
structure CollabResponse where
  overall_summary : String
  top_pick : String
  ranked_plans : List RankedEntry
  deriving Repr, DecidableEq

/-- A validated RecommendationResult (spec §3). -/
structure RecommendationResult where
  overall_summary : String
  top_pick : String
  ranked_plans : List RankedEntry
  deriving Repr, DecidableEq

/-- Drop ranked entries whose `plan_name` is not among the given eligible
names (spec §4.4 response validation). -/
def sanitizeRanked (names : List String) (entries : List RankedEntry) :
    List RankedEntry :=
  entries.filter (fun e => decide (e.plan_name ∈ names))

/-- Modelled from the spec: `gemini_analyzer.analyze_plans` is imported by
`src/backend/main.py` but its module is not under `src/`.  Per spec §4.4 it
filters the catalog by the five profile constraints (failing with
`NoEligiblePlans` on an empty eligible set), hands the eligible set plus the
profile to the reasoning collaborator, and sanitizes the response: ranked
entries naming unknown plans are dropped, an unknown `top_pick` is replaced
by the first valid ranked entry, and zero surviving entries fail with
`AdvisoryError`. -/
def analyze_plans (collab : RecommendRequest → List Plan → CollabResponse)
    (profile : RecommendRequest) (plans : List Plan) :
    Except EngineError RecommendationResult :=
  let elig := eligibleSet profile plans
  if elig = [] then Except.error EngineError.NoEligiblePlans
  else
    let names := elig.map Plan.plan_name
    let resp := collab profile elig
    match sanitizeRanked names resp.ranked_plans with
    | [] => Except.error EngineError.AdvisoryError
    | v :: vs =>
      Except.ok
        { overall_summary := resp.overall_summary
          top_pick :=
            if resp.top_pick ∈ names then resp.top_pick else v.plan_name
          ranked_plans := v :: vs }

/-- Failures of the `POST /api/recommend` endpoint. -/
inductive RecommendError
  | emptyDb            -- HTTP 404 raised before the analyzer is invoked
  | engine (e : EngineError)
  deriving Repr, DecidableEq

/-- `POST /api/recommend` (`recommend`, `src/backend/main.py` lines
171-206): 404 on an empty catalog, otherwise every stored plan is
serialized and handed to `analyze_plans`. -/
def recommend (collab : RecommendRequest → List Plan → CollabResponse)
    (profile : RecommendRequest) (db : List Plan) :
    Except RecommendError RecommendationResult :=
  match db with
  | [] => Except.error RecommendError.emptyDb
  | _ :: _ =>
    match analyze_plans collab profile db with
    | Except.error e => Except.error (RecommendError.engine e)
    | Except.ok r => Except.ok r

/-! ## Compare endpoint (`src/backend/main.py` lines 209-232) -/

/-- The outcome of `POST /api/compare` before the collaborator call:
either the HTTP 400 failure (the spec taxonomy's `NotFoundError`) or the
selected plans plus profile forwarded to `compare_specific_plans`. -/
inductive CompareOutcome
  | notFound
  | forwarded (selected : List Plan) (profile : RecommendRequest)
  deriving Repr, DecidableEq

/-- The plans selected by `compare_plans_endpoint`: every stored plan whose
`plan_name` occurs in the request's list (exact, case-sensitive `in`). -/
def compare_selected (db : List Plan) (names : List String) : List Plan :=
  db.filter (fun p => decide (p.plan_name ∈ names))

/-- `POST /api/compare` (`compare_plans_endpoint`, `src/backend/main.py`
lines 209-232): no eligibility filtering; selects the stored plans whose
name is in the request, raises HTTP 400 when fewer than 2 plans match,
otherwise forwards the selected set and the profile to the collaborator. -/
def compare_plans_endpoint (db : List Plan) (names : List String)
    (profile : RecommendRequest) : CompareOutcome :=
  let selected := compare_selected db names
  if selected.length < 2 then CompareOutcome.notFound
  else CompareOutcome.forwarded selected profile

/-- The supplied names that resolve to at least one stored plan — the
quantity the spec predicates the compare failure on ("fewer than 2
resolvable names"). -/
def resolvedNames (db : List Plan) (names : List String) : List String :=
  names.filter (fun n => db.any (fun p => p.plan_name = n))

/-! ## Manual CRUD endpoints (`src/backend/main.py` lines 274-314) -/

/-- The `PlanCreate` request schema (`src/backend/main.py` lines 79-91). -/
structure PlanCreate where
  plan_name : String
  provider : String
  sum_assured_min : ℚ
  sum_assured_max : ℚ
  premium_annual : ℚ
  policy_term_min : Int
  policy_term_max : Int
  age_min : Int
  age_max : Int
  claim_settlement_ratio : ℚ
  key_features : String
  source_url : String
  deriving Repr, DecidableEq

/-- The pydantic per-field validation of `PlanCreate`: exactly the `Field`
constraints written at `src/backend/main.py` lines 80-91 (string minimum
lengths, positivity of the sums and premium, ranges of the terms and ages,
`0 ≤ claim_settlement_ratio ≤ 100`).  No cross-field constraint appears in
the source. -/
def PlanCreate.fieldValid (c : PlanCreate) : Bool :=
  2 ≤ c.plan_name.length && 2 ≤ c.provider.length &&
  0 < c.sum_assured_min && 0 < c.sum_assured_max && 0 < c.premium_annual &&
  1 ≤ c.policy_term_min && c.policy_term_min ≤ 50 &&
  1 ≤ c.policy_term_max && c.policy_term_max ≤ 60 &&
  1 ≤ c.age_min && c.age_min ≤ 99 &&
  1 ≤ c.age_max && c.age_max ≤ 99 &&
  0 ≤ c.claim_settlement_ratio && c.claim_settlement_ratio ≤ 100

/-- The stored row built by `create_plan`:
`InsurancePlan(**plan.model_dump(), source="manual")`. -/
def PlanCreate.toPlan (c : PlanCreate) (newId : Nat) : Plan :=
  { id := newId
    plan_name := c.plan_name
    provider := c.provider
    source := "manual"
    sum_assured_min := c.sum_assured_min
    sum_assured_max := c.sum_assured_max
    premium_annual := c.premium_annual
    policy_term_min := c.policy_term_min
    policy_term_max := c.policy_term_max
    age_min := c.age_min
    age_max := c.age_max
    claim_settlement_ratio := c.claim_settlement_ratio
    key_features := c.key_features
    source_url := c.source_url }

/-- `POST /api/plans` (`create_plan`, `src/backend/main.py` lines 274-281):
pydantic validates the body against `PlanCreate`; on success the new row is
persisted with `source = "manual"`.  `none` models the 422 validation
rejection. -/
def create_plan (db : List Plan) (newId : Nat) (c : PlanCreate) :
    Option (List Plan) :=
  if c.fieldValid then some (db ++ [c.toPlan newId]) else none

/-- The `PlanUpdate` request schema (`src/backend/main.py` lines 94-106):
every field optional, no `id`, no `source`, and no `Field` constraint. -/
structure PlanUpdate where
  plan_name : Option String := none
  provider : Option String := none
  sum_assured_min : Option ℚ := none
  sum_assured_max : Option ℚ := none
  premium_annual : Option ℚ := none
  policy_term_min : Option Int := none
  policy_term_max : Option Int := none
  age_min : Option Int := none
  age_max : Option Int := none
  claim_settlement_ratio : Option ℚ := none
  key_features : Option String := none
  source_url : Option String := none
  deriving Repr, DecidableEq

/-- The `setattr` loop of `update_plan`: every field present in
`updates.model_dump(exclude_none=True)` overwrites the stored value, every
omitted (None) field is left alone. -/
def applyUpdate (p : Plan) (u : PlanUpdate) : Plan :=
  { id := p.id
    plan_name := u.plan_name.getD p.plan_name
    provider := u.provider.getD p.provider
    source := p.source
    sum_assured_min := u.sum_assured_min.getD p.sum_assured_min
    sum_assured_max := u.sum_assured_max.getD p.sum_assured_max
    premium_annual := u.premium_annual.getD p.premium_annual
    policy_term_min := u.policy_term_min.getD p.policy_term_min
    policy_term_max := u.policy_term_max.getD p.policy_term_max
    age_min := u.age_min.getD p.age_min
    age_max := u.age_max.getD p.age_max
    claim_settlement_ratio :=
      u.claim_settlement_ratio.getD p.claim_settlement_ratio
    key_features := u.key_features.getD p.key_features
    source_url := u.source_url.getD p.source_url }

/-- Replace the first element satisfying `f` by its image under `g`
(SQLAlchemy `.filter(...).first()` followed by in-place mutation). -/
def replaceFirst {α : Type} (f : α → Bool) (g : α → α) : List α → List α
  | [] => []
  | x :: xs => if f x then g x :: xs else x :: replaceFirst f g xs

/-- `PUT /api/plans/{plan_id}` (`update_plan`, `src/backend/main.py` lines
284-294): 404 (`none`) when no row has the id, otherwise the first matching
row is mutated by the `setattr` loop. -/
def update_plan (db : List Plan) (plan_id : Nat) (u : PlanUpdate) :
    Option (List Plan) :=
  match db.find? (fun p => p.id = plan_id) with
  | none => none
  | some _ =>
    some (replaceFirst (fun p => p.id = plan_id) (fun p => applyUpdate p u) db)

/-! ## Canonical Store upsert (spec §4.3)

The automated ingestion path (`scraper.scheduler.run_scrape_job` and the
modules it drives) is imported by `src/backend/main.py` but not under
`src/`; its upsert is modelled from spec §4.3. -/

/-- A normalized record produced by a source adapter during a scrape run. -/
structure NormalizedRecord where
  plan_name : String
  provider : String
  sum_assured_min : ℚ
  sum_assured_max : ℚ
  premium_annual : ℚ
  policy_term_min : Int
  policy_term_max : Int
  age_min : Int
  age_max : Int
  claim_settlement_ratio : ℚ
  key_features : String
  source_url : String
  deriving Repr, DecidableEq

/-- The case-insensitive `(provider, plan_name)` identity key (spec §4.3). -/
def keyMatch (rec : NormalizedRecord) (p : Plan) : Bool :=
  lowerChars p.provider = lowerChars rec.provider &&
  lowerChars p.plan_name = lowerChars rec.plan_name

/-- Per-record outcome of an upsert. -/
inductive UpsertOutcome
  | inserted
  | updated
  | skipped
  deriving Repr, DecidableEq

/-- Step 3 of the upsert: overwrite the mutable fields in place, preserving
the stable identifier, identity and source. -/
def overwriteMutable (p : Plan) (rec : NormalizedRecord) : Plan :=
  { p with
    sum_assured_min := rec.sum_assured_min
    sum_assured_max := rec.sum_assured_max
    premium_annual := rec.premium_annual
    policy_term_min := rec.policy_term_min
    policy_term_max := rec.policy_term_max
    age_min := rec.age_min
    age_max := rec.age_max
    claim_settlement_ratio := rec.claim_settlement_ratio
    key_features := rec.key_features
    source_url := rec.source_url }

/-- Step 2 of the upsert: insert a fresh row carrying the producing
adapter's name as `source`. -/
def insertPlan (rec : NormalizedRecord) (adapterName : String) (newId : Nat) :
    Plan :=
  { id := newId
    plan_name := rec.plan_name
    provider := rec.provider
    source := adapterName
    sum_assured_min := rec.sum_assured_min
    sum_assured_max := rec.sum_assured_max
    premium_annual := rec.premium_annual
    policy_term_min := rec.policy_term_min
    policy_term_max := rec.policy_term_max
    age_min := rec.age_min
    age_max := rec.age_max
    claim_settlement_ratio := rec.claim_settlement_ratio
    key_features := rec.key_features
    source_url := rec.source_url }

/-- Modelled from the spec: the Canonical Store upsert of §4.3, applied once
per normalized record of a scrape run (the scraper module implementing it is
not under `src/`).  Lookup by the case-insensitive identity key; absent →
insert; present with an automated source → overwrite the mutable fields in
place; present with source `"manual"` → skip entirely. -/
def upsertOne (store : List Plan) (rec : NormalizedRecord)
    (adapterName : String) (newId : Nat) : List Plan × UpsertOutcome :=
  match store.find? (keyMatch rec) with
  | none => (store ++ [insertPlan rec adapterName newId], UpsertOutcome.inserted)
  | some p =>
    if p.source = "manual" then (store, UpsertOutcome.skipped)
    else
      (replaceFirst (keyMatch rec) (fun q => overwriteMutable q rec) store,
       UpsertOutcome.updated)

/-! ## Scrape Scheduler (spec §4.1, §5) and startup (`lifespan`)

`scraper.scheduler` is imported by `src/backend/main.py` but not under
`src/`; `runNow`, the run-lock and the aggregate status are modelled from
the spec.  The startup ordering itself comes from `lifespan`
(`src/backend/main.py` lines 26-34). -/

/-- Aggregate status of a scrape run, plus `skipped` for a coalesced call. -/
inductive RunStatus
  | success
  | partial_success
  | failed
  | skipped
  deriving Repr, DecidableEq

/-- What one registered adapter contributed to a run. -/
inductive AdapterOutcome
  | fetched (records : List NormalizedRecord)
  | fetchFailure
  deriving Repr, DecidableEq

/-- One execution of the scheduler (spec §3, ScrapeRun). -/
structure ScrapeRun where
  reason : String
  status : RunStatus
  deriving Repr, DecidableEq

/-- Modelled from the spec: aggregate status of a run (§4.1) — `failed` iff
every adapter failed, `partial_success` iff at least one failed and at least
one succeeded, `success` otherwise. -/
def aggregateStatus (outcomes : List AdapterOutcome) : RunStatus :=
  if outcomes.all (fun o => o = AdapterOutcome.fetchFailure) then
    RunStatus.failed
  else if outcomes.any (fun o => o = AdapterOutcome.fetchFailure) then
    RunStatus.partial_success
  else RunStatus.success

/-- Modelled from the spec: the body of `run_scrape_job` / `runNow` once the
lock is held (§4.1) — every adapter is invoked, individual failures are
collected into the aggregate status, and the function always returns a
finalized `ScrapeRun` (adapter failures are recorded, never raised). -/
def runScrapeJob (reason : String) (outcomes : List AdapterOutcome) :
    ScrapeRun :=
  { reason := reason, status := aggregateStatus outcomes }

/-- The scheduler's only piece of shared state: the run-lock. -/
structure SchedulerState where
  lockHeld : Bool
  deriving Repr, DecidableEq

/-- Modelled from the spec: `runNow(reason)` (§4.1) — if the run-lock is
already held the call returns immediately with status `skipped` and touches
nothing; otherwise it acquires the lock, runs the job, and releases the lock
on every exit path. -/
def runNow (st : SchedulerState) (reason : String)
    (outcomes : List AdapterOutcome) : ScrapeRun × SchedulerState :=
  if st.lockHeld then
    ({ reason := reason, status := RunStatus.skipped }, st)
  else
    (runScrapeJob reason outcomes, { lockHeld := false })

/-- Two simultaneous `runNow` invocations: the first finds the lock free and
acquires it; the second is evaluated against the state in which the first
still holds the lock. -/
def runNowSimultaneous (reason1 reason2 : String)
    (outcomes : List AdapterOutcome) : ScrapeRun × ScrapeRun :=
  ((runNow { lockHeld := false } reason1 outcomes).1,
   (runNow { lockHeld := true } reason2 outcomes).1)

/-- Observable startup events of the service. -/
inductive StartupEvent
  | dbInitialized
  | startupRunFinished (status : RunStatus)
  | schedulerStarted
  | acceptingTraffic
  deriving Repr, DecidableEq

/-- The startup sequence of the service (`lifespan`, `src/backend/main.py`
lines 26-34): `init_db()`, then `run_scrape_job()` called synchronously and
to completion, then `start_scheduler()`, and only after the `yield` does the
app accept traffic. -/
def lifespanTrace (outcomes : List AdapterOutcome) : List StartupEvent :=
  [ StartupEvent.dbInitialized,
    StartupEvent.startupRunFinished (runScrapeJob "startup" outcomes).status,
    StartupEvent.schedulerStarted,
    StartupEvent.acceptingTraffic ]

/-! ## Concrete sample data (spec §8 end-to-end scenarios) -/

/-- Plan A of spec scenario 1. -/
def planA : Plan :=
  { id := 1, plan_name := "Plan A", provider := "X Life"
    source := "adapter_x"
    sum_assured_min := 50, sum_assured_max := 100, premium_annual := 5000
    policy_term_min := 10, policy_term_max := 30, age_min := 18, age_max := 60
    claim_settlement_ratio := 98, key_features := "", source_url := "" }

/-- Plan B of spec scenario 1. -/
def planB : Plan :=
  { id := 2, plan_name := "Plan B", provider := "Y Life"
    source := "adapter_y"
    sum_assured_min := 50, sum_assured_max := 200, premium_annual := 12000
    policy_term_min := 5, policy_term_max := 40, age_min := 21, age_max := 65
    claim_settlement_ratio := 80, key_features := "", source_url := "" }

/-- The user profile of spec scenario 1. -/
def profile1 : RecommendRequest :=
  { age := 30, sum_assured := 75, premium_budget := 8000, policy_term := 20
    min_csr := 95 }

/-- A collaborator that always answers with an empty ranking. -/
def constCollab : RecommendRequest → List Plan → CollabResponse :=
  fun _ _ => { overall_summary := "", top_pick := "", ranked_plans := [] }

/-- A collaborator whose answer names one real plan and one invented one,
and whose top pick is the invented one. -/
def collabW : RecommendRequest → List Plan → CollabResponse :=
  fun _ _ =>
    { overall_summary := "summary"
      top_pick := "Ghost Plan"
      ranked_plans :=
        [ { plan_name := "Plan A", rationale := "fits the profile" },
          { plan_name := "Ghost Plan", rationale := "invented" } ] }

/-- The sanitized result the engine produces from `collabW` on scenario 1. -/
def resultW : RecommendationResult :=
  { overall_summary := "summary"
    top_pick := "Plan A"
    ranked_plans := [ { plan_name := "Plan A", rationale := "fits the profile" } ] }

/-! ## Claim theorems -/

/-- C1: a plan is in the eligible set handed to the reasoning collaborator
(`analyze_plans` invokes `collab` exactly on `eligibleSet profile plans`)
iff it is a stored plan satisfying all five profile constraints; in
particular no plan violating any of the five constraints is ever in the
eligible set. -/
theorem eligibleSet_mem_iff (profile : RecommendRequest) (plans : List Plan)
    (p : Plan) :
    p ∈ eligibleSet profile plans ↔
      p ∈ plans ∧
      p.age_min ≤ profile.age ∧ profile.age ≤ p.age_max ∧
      p.sum_assured_min ≤ profile.sum_assured ∧
      profile.sum_assured ≤ p.sum_assured_max ∧
      profile.premium_budget ≥ p.premium_annual ∧
      p.policy_term_min ≤ profile.policy_term ∧
      profile.policy_term ≤ p.policy_term_max ∧
      p.claim_settlement_ratio ≥ profile.min_csr := by
  simp [eligibleSet, eligible, List.mem_filter, ge_iff_le, and_assoc]

/-- C9: the list returned by `GET /api/plans` is sorted in non-increasing
order of `claim_settlement_ratio`, whatever the optional `source`,
`min_csr` and `search` filters are, and is a permutation of the filtered
catalog. -/
theorem get_plans_sorted_desc (db : List Plan) (source : Option String)
    (min_csr : Option ℚ) (search : Option String) :
    List.Sorted
      (fun a b => b.claim_settlement_ratio ≤ a.claim_settlement_ratio)
      (get_plans db source min_csr search) ∧
    (get_plans db source min_csr search).Perm
      (db.filter (matchesFilters source min_csr search)) := by
  haveI htot :
      IsTotal Plan
        (fun a b => b.claim_settlement_ratio ≤ a.claim_settlement_ratio) :=
    ⟨fun a b => le_total b.claim_settlement_ratio a.claim_settlement_ratio⟩
  haveI htrans :
      IsTrans Plan
        (fun a b => b.claim_settlement_ratio ≤ a.claim_settlement_ratio) :=
    ⟨fun _ _ _ hab hbc => le_trans hbc hab⟩
  exact ⟨List.sorted_insertionSort _ _, List.perm_insertionSort _ _⟩

/-- C10: a manual update modifies exactly the supplied (non-None) fields —
each field of the updated row equals the request value when supplied and
the previous value when omitted (`Option.getD`) — and the row's `id` and
`source` are never changed, since `PlanUpdate` carries neither; updating a
one-row catalog through the endpoint rewrites that row accordingly. -/
theorem applyUpdate_frame (p : Plan) (u : PlanUpdate) :
    (applyUpdate p u).id = p.id ∧
    (applyUpdate p u).source = p.source ∧
    (applyUpdate p u).plan_name = u.plan_name.getD p.plan_name ∧
    (applyUpdate p u).provider = u.provider.getD p.provider ∧
    (applyUpdate p u).sum_assured_min = u.sum_assured_min.getD p.sum_assured_min ∧
    (applyUpdate p u).sum_assured_max = u.sum_assured_max.getD p.sum_assured_max ∧
    (applyUpdate p u).premium_annual = u.premium_annual.getD p.premium_annual ∧
    (applyUpdate p u).policy_term_min = u.policy_term_min.getD p.policy_term_min ∧
    (applyUpdate p u).policy_term_max = u.policy_term_max.getD p.policy_term_max ∧
    (applyUpdate p u).age_min = u.age_min.getD p.age_min ∧
    (applyUpdate p u).age_max = u.age_max.getD p.age_max ∧
    (applyUpdate p u).claim_settlement_ratio =
      u.claim_settlement_ratio.getD p.claim_settlement_ratio ∧
    (applyUpdate p u).key_features = u.key_features.getD p.key_features ∧
    (applyUpdate p u).source_url = u.source_url.getD p.source_url ∧
    update_plan [p] p.id u = some [applyUpdate p u] := by
  refine ⟨rfl, rfl, rfl, rfl, rfl, rfl, rfl, rfl, rfl, rfl, rfl, rfl, rfl, rfl, ?_⟩
  simp [update_plan, replaceFirst]

/-- C2: when the five-constraint filter yields the empty set the engine
fails with `NoEligiblePlans`, and the recommend call never returns a
result. -/
theorem analyze_plans_no_eligible
    (collab : RecommendRequest → List Plan → CollabResponse)
    (profile : RecommendRequest) (plans : List Plan)
    (h : eligibleSet profile plans = []) :
    analyze_plans collab profile plans =
      Except.error EngineError.NoEligiblePlans ∧
    ∀ r, recommend collab profile plans ≠ Except.ok r := by
  refine ⟨by simp [analyze_plans, h], ?_⟩
  intro r
  cases plans with
  | nil => simp [recommend]
  | cons a as => simp [recommend, analyze_plans, h]

/-- C2 witness: spec scenario — Plan B fails both the budget and the CSR
constraint of profile 1, so the engine answers `NoEligiblePlans`. -/
theorem analyze_plans_no_eligible_witness :
    analyze_plans constCollab profile1 [planB] =
      Except.error EngineError.NoEligiblePlans :=
  (analyze_plans_no_eligible constCollab profile1 [planB] (by decide)).1

/-- Entries surviving `sanitizeRanked` name a plan of the eligible list. -/
theorem mem_names_of_mem_sanitizeRanked {names : List String}
    {l : List RankedEntry} {e : RankedEntry} (h : e ∈ sanitizeRanked names l) :
    e.plan_name ∈ names := by
  simp only [sanitizeRanked, List.mem_filter, decide_eq_true_eq] at h
  exact h.2

/-- Unfolding of `analyze_plans` in the case where the filter is non-empty
and the sanitization keeps at least one ranked entry. -/
theorem analyze_plans_ok_eq
    (collab : RecommendRequest → List Plan → CollabResponse)
    (profile : RecommendRequest) (plans : List Plan)
    (hel : eligibleSet profile plans ≠ [])
    (v : RankedEntry) (vs : List RankedEntry)
    (hsan : sanitizeRanked ((eligibleSet profile plans).map Plan.plan_name)
        (collab profile (eligibleSet profile plans)).ranked_plans = v :: vs) :
    analyze_plans collab profile plans =
      Except.ok
        { overall_summary :=
            (collab profile (eligibleSet profile plans)).overall_summary
          top_pick :=
            if (collab profile (eligibleSet profile plans)).top_pick ∈
                (eligibleSet profile plans).map Plan.plan_name then
              (collab profile (eligibleSet profile plans)).top_pick
            else v.plan_name
          ranked_plans := v :: vs } := by
  unfold analyze_plans
  rw [if_neg hel]
  simp only [hsan]

/-- C3: whenever the engine returns a result, its `ranked_plans` are exactly
the collaborator's entries that name a plan of the eligible set (unknown
names having been dropped), its `top_pick` names a plan of the eligible
set, and if zero entries survive the sanitization the engine fails with
`AdvisoryError`. -/
theorem analyze_plans_containment
    (collab : RecommendRequest → List Plan → CollabResponse)
    (profile : RecommendRequest) (plans : List Plan) :
    (∀ r, analyze_plans collab profile plans = Except.ok r →
      (∀ e ∈ r.ranked_plans,
        e.plan_name ∈ (eligibleSet profile plans).map Plan.plan_name) ∧
      r.top_pick ∈ (eligibleSet profile plans).map Plan.plan_name ∧
      r.ranked_plans =
        sanitizeRanked ((eligibleSet profile plans).map Plan.plan_name)
          (collab profile (eligibleSet profile plans)).ranked_plans) ∧
    (eligibleSet profile plans ≠ [] →
      sanitizeRanked ((eligibleSet profile plans).map Plan.plan_name)
          (collab profile (eligibleSet profile plans)).ranked_plans = [] →
      analyze_plans collab profile plans =
        Except.error EngineError.AdvisoryError) := by
  constructor
  · intro r hr
    by_cases hel : eligibleSet profile plans = []
    · simp [analyze_plans, hel] at hr
    · rcases hsan : sanitizeRanked ((eligibleSet profile plans).map Plan.plan_name)
          (collab profile (eligibleSet profile plans)).ranked_plans with _ | ⟨v, vs⟩
      · simp [analyze_plans, hel, hsan] at hr
      · have hok := analyze_plans_ok_eq collab profile plans hel v vs hsan
        rw [hr] at hok
        have hre := Except.ok.inj hok
        subst hre
        refine ⟨?_, ?_, ?_⟩
        · intro e he
          rw [← hsan] at he
          exact mem_names_of_mem_sanitizeRanked he
        · by_cases htp :
              (collab profile (eligibleSet profile plans)).top_pick ∈
                (eligibleSet profile plans).map Plan.plan_name
          · simp [htp]
          · have hv : v ∈ sanitizeRanked
                ((eligibleSet profile plans).map Plan.plan_name)
                (collab profile (eligibleSet profile plans)).ranked_plans := by
              rw [hsan]; exact List.mem_cons_self v vs
            simpa [htp] using mem_names_of_mem_sanitizeRanked hv
        · rfl
  · intro hel hsan
    simp [analyze_plans, hel, hsan]

/-- C3 witness: on spec scenario 1 with the collaborator `collabW`, the
engine's result keeps exactly the entry naming "Plan A", and the invented
top pick is replaced by a name from the eligible set. -/
theorem analyze_plans_containment_witness :
    resultW.top_pick ∈ (eligibleSet profile1 [planA, planB]).map Plan.plan_name ∧
    resultW.ranked_plans =
      sanitizeRanked ((eligibleSet profile1 [planA, planB]).map Plan.plan_name)
        (collabW profile1 (eligibleSet profile1 [planA, planB])).ranked_plans :=
  ⟨((analyze_plans_containment collabW profile1 [planA, planB]).1 resultW
      (by decide)).2.1,
   ((analyze_plans_containment collabW profile1 [planA, planB]).1 resultW
      (by decide)).2.2⟩

/-- A `PlanCreate` body whose sum-assured bounds are inverted; every
per-field constraint of the pydantic schema is satisfied. -/
def badCreate : PlanCreate :=
  { plan_name := "Inverted Plan", provider := "Acme Life"
    sum_assured_min := 100, sum_assured_max := 50, premium_annual := 5000
    policy_term_min := 10, policy_term_max := 30, age_min := 18, age_max := 65
    claim_settlement_ratio := 97, key_features := "", source_url := "" }

/-- C4 counterexample: the manual create path accepts and persists a record
with `sum_assured_min > sum_assured_max` — `PlanCreate` has no cross-field
constraint, so the claimed ordering invariants are not enforced on every
write path. -/
theorem create_plan_invariant_cex :
    create_plan [] 1 badCreate = some [badCreate.toPlan 1] ∧
    (badCreate.toPlan 1).sum_assured_max < (badCreate.toPlan 1).sum_assured_min := by
  decide

/-- C4 amended: every record persisted by the manual create path satisfies
the per-field bounds of `PlanCreate` — positive sums and premium, policy
terms and ages in their declared ranges, and
`0 ≤ claim_settlement_ratio ≤ 100` — and carries `source = "manual"`; the
cross-field orderings (min ≤ max) are not validated there, nor is anything
validated on the manual update path. -/
theorem create_plan_field_bounds (db : List Plan) (newId : Nat)
    (c : PlanCreate) (db2 : List Plan) (h : create_plan db newId c = some db2) :
    ∀ p ∈ db2, p ∈ db ∨
      (0 < p.sum_assured_min ∧ 0 < p.sum_assured_max ∧ 0 < p.premium_annual ∧
       1 ≤ p.policy_term_min ∧ p.policy_term_min ≤ 50 ∧
       1 ≤ p.policy_term_max ∧ p.policy_term_max ≤ 60 ∧
       1 ≤ p.age_min ∧ p.age_min ≤ 99 ∧ 1 ≤ p.age_max ∧ p.age_max ≤ 99 ∧
       0 ≤ p.claim_settlement_ratio ∧ p.claim_settlement_ratio ≤ 100 ∧
       p.source = "manual") := by
  unfold create_plan at h
  split at h
  case isTrue hv =>
    have hdb : db ++ [c.toPlan newId] = db2 := Option.some.inj h
    subst hdb
    intro p hp
    rcases List.mem_append.mp hp with hcase | hcase
    · exact Or.inl hcase
    · right
      have hp2 : p = c.toPlan newId := by simpa using hcase
      subst hp2
      simp only [PlanCreate.fieldValid, Bool.and_eq_true, decide_eq_true_eq,
        and_assoc] at hv
      obtain ⟨h1, h2, h3, h4, h5, h6, h7, h8, h9, h10, h11, h12, h13, h14, h15⟩ := hv
      exact ⟨h3, h4, h5, h6, h7, h8, h9, h10, h11, h12, h13, h14, h15, rfl⟩
  case isFalse hv => exact absurd h (by simp)

/-- A well-formed `PlanCreate` body. -/
def goodCreate : PlanCreate :=
  { plan_name := "Solid Plan", provider := "Acme Life"
    sum_assured_min := 50, sum_assured_max := 100, premium_annual := 6000
    policy_term_min := 10, policy_term_max := 30, age_min := 18, age_max := 65
    claim_settlement_ratio := 96, key_features := "", source_url := "" }

/-- C4 amended witness: the concrete create of `goodCreate` persists a row
within all the per-field bounds. -/
theorem create_plan_field_bounds_witness :
    goodCreate.toPlan 5 ∈ ([] : List Plan) ∨
      (0 < (goodCreate.toPlan 5).sum_assured_min ∧
       0 < (goodCreate.toPlan 5).sum_assured_max ∧
       0 < (goodCreate.toPlan 5).premium_annual ∧
       1 ≤ (goodCreate.toPlan 5).policy_term_min ∧
       (goodCreate.toPlan 5).policy_term_min ≤ 50 ∧
       1 ≤ (goodCreate.toPlan 5).policy_term_max ∧
       (goodCreate.toPlan 5).policy_term_max ≤ 60 ∧
       1 ≤ (goodCreate.toPlan 5).age_min ∧ (goodCreate.toPlan 5).age_min ≤ 99 ∧
       1 ≤ (goodCreate.toPlan 5).age_max ∧ (goodCreate.toPlan 5).age_max ≤ 99 ∧
       0 ≤ (goodCreate.toPlan 5).claim_settlement_ratio ∧
       (goodCreate.toPlan 5).claim_settlement_ratio ≤ 100 ∧
       (goodCreate.toPlan 5).source = "manual") :=
  create_plan_field_bounds [] 5 goodCreate [goodCreate.toPlan 5] (by decide)
    (goodCreate.toPlan 5) (by decide)

/-- If `find?` returns `p` and `q` is a different member of the list, `q`
survives `replaceFirst` unchanged. -/
theorem mem_replaceFirst_of_find_ne {l : List Plan} {f : Plan → Bool}
    {g : Plan → Plan} {p q : Plan} (hfind : l.find? f = some p) (hq : q ∈ l)
    (hne : q ≠ p) : q ∈ replaceFirst f g l := by
  induction l with
  | nil => cases hq
  | cons x xs ih =>
    by_cases hfx : f x = true
    · have hpx : p = x := by
        rw [List.find?_cons_of_pos _ hfx] at hfind
        exact (Option.some.inj hfind).symm
      rcases List.mem_cons.mp hq with hqx | hqxs
      · exact absurd (hqx.trans hpx.symm) hne
      · simp only [replaceFirst, if_pos hfx]
        exact List.mem_cons_of_mem _ hqxs
    · have hfx2 : f x = false := Bool.not_eq_true _ |>.mp hfx
      have hfind2 : xs.find? f = some p := by
        rw [List.find?_cons_of_neg _ hfx] at hfind
        exact hfind
      rcases List.mem_cons.mp hq with hqx | hqxs
      · simp only [replaceFirst, hfx2, Bool.false_eq_true, if_false]
        exact hqx ▸ List.mem_cons_self x _
      · simp only [replaceFirst, hfx2, Bool.false_eq_true, if_false]
        exact List.mem_cons_of_mem _ (ih hfind2 hqxs)

/-- C5: an automated upsert never touches a record whose source is
`"manual"` — if the lookup by the case-insensitive identity key finds a
manual record the whole upsert is a skip leaving the store unchanged, and
in every case every stored manual record is still present, unchanged, after
the upsert. -/
theorem upsert_manual_sticky (store : List Plan) (rec : NormalizedRecord)
    (adapterName : String) (newId : Nat) :
    (∀ p, store.find? (keyMatch rec) = some p → p.source = "manual" →
      (upsertOne store rec adapterName newId).1 = store ∧
      (upsertOne store rec adapterName newId).2 = UpsertOutcome.skipped) ∧
    (∀ q ∈ store, q.source = "manual" →
      q ∈ (upsertOne store rec adapterName newId).1) := by
  constructor
  · intro p hfind hman
    simp [upsertOne, hfind, hman]
  · intro q hq hman
    unfold upsertOne
    cases hfind : store.find? (keyMatch rec) with
    | none =>
      simp only []
      exact List.mem_append.mpr (Or.inl hq)
    | some p =>
      by_cases hps : p.source = "manual"
      · simp only [if_pos hps]
        exact hq
      · have hne : q ≠ p := fun h => hps (h ▸ hman)
        simp only [if_neg hps]
        exact mem_replaceFirst_of_find_ne hfind hq hne

/-- A manually edited record (spec scenario 4). -/
def manualPlanW : Plan :=
  { id := 3, plan_name := "CustomPlan", provider := "Acme Life"
    source := "manual"
    sum_assured_min := 50, sum_assured_max := 100, premium_annual := 9999
    policy_term_min := 10, policy_term_max := 30, age_min := 18, age_max := 60
    claim_settlement_ratio := 97, key_features := "", source_url := "" }

/-- A scraped record matching `manualPlanW` case-insensitively but with a
different premium (spec scenario 4). -/
def scrapedRecW : NormalizedRecord :=
  { plan_name := "customplan", provider := "ACME LIFE"
    sum_assured_min := 50, sum_assured_max := 100, premium_annual := 7777
    policy_term_min := 10, policy_term_max := 30, age_min := 18, age_max := 60
    claim_settlement_ratio := 97, key_features := "", source_url := "" }

/-- C5 witness: spec scenario 4 — the automated upsert of `scrapedRecW`
against the store holding the manual record skips and leaves the stored
premium at 9999. -/
theorem upsert_manual_sticky_witness :
    (upsertOne [manualPlanW] scrapedRecW "adapter_x" 9).1 = [manualPlanW] ∧
    (upsertOne [manualPlanW] scrapedRecW "adapter_x" 9).2 =
      UpsertOutcome.skipped :=
  (upsert_manual_sticky [manualPlanW] scrapedRecW "adapter_x" 9).1 manualPlanW
    (by decide) (by decide)

/-- A stored plan named "Alpha Shield" from provider X. -/
def alphaX : Plan :=
  { id := 10, plan_name := "Alpha Shield", provider := "X Life"
    source := "adapter_x"
    sum_assured_min := 50, sum_assured_max := 100, premium_annual := 5000
    policy_term_min := 10, policy_term_max := 30, age_min := 18, age_max := 60
    claim_settlement_ratio := 98, key_features := "", source_url := "" }

/-- A distinct stored plan with the same `plan_name` from provider Y —
allowed by the uniqueness constraint on `(provider, lower(plan_name))`. -/
def alphaY : Plan :=
  { id := 11, plan_name := "Alpha Shield", provider := "Y Life"
    source := "adapter_y"
    sum_assured_min := 50, sum_assured_max := 200, premium_annual := 7000
    policy_term_min := 5, policy_term_max := 40, age_min := 21, age_max := 65
    claim_settlement_ratio := 96, key_features := "", source_url := "" }

/-- C6 counterexample: with two stored plans sharing the name
"Alpha Shield", the request `["Alpha Shield", "Zeta"]` has only ONE
resolvable name, yet the endpoint counts two matching plans and forwards
instead of failing — the failure condition is the number of matching
plans, not the number of resolving names. -/
theorem compare_resolved_names_cex :
    (resolvedNames [alphaX, alphaY] ["Alpha Shield", "Zeta"]).length < 2 ∧
    compare_plans_endpoint [alphaX, alphaY] ["Alpha Shield", "Zeta"] profile1 =
      CompareOutcome.forwarded [alphaX, alphaY] profile1 := by
  decide

/-- C6 amended: the compare endpoint skips eligibility filtering and fails
(HTTP 400, the spec taxonomy's `NotFoundError`) exactly when fewer than 2
stored PLANS have their name in the supplied list; otherwise it forwards
the selected, unfiltered plans plus the profile to the reasoning
collaborator. -/
theorem compare_plans_matching (db : List Plan) (names : List String)
    (profile : RecommendRequest) :
    (compare_plans_endpoint db names profile = CompareOutcome.notFound ↔
      (compare_selected db names).length < 2) ∧
    (2 ≤ (compare_selected db names).length →
      compare_plans_endpoint db names profile =
        CompareOutcome.forwarded (compare_selected db names) profile) := by
  by_cases hlt : (compare_selected db names).length < 2
  · refine ⟨?_, ?_⟩
    · simp [compare_plans_endpoint, hlt]
    · intro h2; omega
  · refine ⟨?_, ?_⟩
    · simp [compare_plans_endpoint, hlt]
    · intro _
      simp [compare_plans_endpoint, hlt]

/-- C6 amended witness: comparing the two scenario-1 plans by name forwards
both, unfiltered, with the profile. -/
theorem compare_plans_matching_witness :
    compare_plans_endpoint [planA, planB] ["Plan A", "Plan B"] profile1 =
      CompareOutcome.forwarded
        (compare_selected [planA, planB] ["Plan A", "Plan B"]) profile1 :=
  (compare_plans_matching [planA, planB] ["Plan A", "Plan B"] profile1).2
    (by decide)

/-- C7: in the startup sequence of `lifespan`, the service accepts traffic
only after the synchronous startup scrape run has finished — every
occurrence of `acceptingTraffic` in the trace is preceded by
`startupRunFinished` — and when every adapter fails the run finalizes with
status `failed` while the service still reaches `acceptingTraffic`. -/
theorem startup_run_before_traffic (outcomes : List AdapterOutcome) :
    StartupEvent.acceptingTraffic ∈ lifespanTrace outcomes ∧
    (∀ pre post,
      lifespanTrace outcomes = pre ++ StartupEvent.acceptingTraffic :: post →
      StartupEvent.startupRunFinished (runScrapeJob "startup" outcomes).status
        ∈ pre) ∧
    (outcomes.all (fun o => o = AdapterOutcome.fetchFailure) = true →
      (runScrapeJob "startup" outcomes).status = RunStatus.failed) := by
  refine ⟨by simp [lifespanTrace], ?_, ?_⟩
  · intro pre post h
    rcases pre with _ | ⟨a, _ | ⟨b, _ | ⟨c, _ | ⟨d, rest⟩⟩⟩⟩
    · simp [lifespanTrace] at h
    · simp [lifespanTrace] at h
    · simp [lifespanTrace] at h
    · simp only [lifespanTrace, List.cons_append, List.nil_append,
        List.cons.injEq] at h
      obtain ⟨ha, hb, hc, _⟩ := h
      rw [hb]
      simp
    · simp only [lifespanTrace, List.cons_append, List.nil_append,
        List.cons.injEq] at h
      obtain ⟨_, _, _, _, hrest⟩ := h
      exact absurd hrest.symm (by simp)
  · intro hall
    simp [runScrapeJob, aggregateStatus, hall]

/-- C7 witness: with a single adapter that fails, the startup run finalizes
as `failed` and the trace still reaches `acceptingTraffic`. -/
theorem startup_run_before_traffic_witness :
    (runScrapeJob "startup" [AdapterOutcome.fetchFailure]).status =
      RunStatus.failed ∧
    StartupEvent.acceptingTraffic ∈
      lifespanTrace [AdapterOutcome.fetchFailure] :=
  ⟨(startup_run_before_traffic [AdapterOutcome.fetchFailure]).2.2 (by decide),
   (startup_run_before_traffic [AdapterOutcome.fetchFailure]).1⟩

/-- C8: `runNow` against a held lock returns immediately with status
`skipped` and an unchanged state, and of two simultaneous invocations the
first — which acquires the free lock — ends in `success`,
`partial_success` or `failed` while the second yields `skipped`. -/
theorem runNow_single_flight (reason1 reason2 : String)
    (outcomes : List AdapterOutcome) :
    (∀ st : SchedulerState, st.lockHeld = true →
      runNow st reason2 outcomes =
        ({ reason := reason2, status := RunStatus.skipped }, st)) ∧
    ((runNowSimultaneous reason1 reason2 outcomes).1.status =
        RunStatus.success ∨
     (runNowSimultaneous reason1 reason2 outcomes).1.status =
        RunStatus.partial_success ∨
     (runNowSimultaneous reason1 reason2 outcomes).1.status =
        RunStatus.failed) ∧
    (runNowSimultaneous reason1 reason2 outcomes).2.status =
      RunStatus.skipped := by
  refine ⟨?_, ?_, ?_⟩
  · intro st h
    simp [runNow, h]
  · simp only [runNowSimultaneous, runNow, if_neg (by simp : ¬(false = true)),
      runScrapeJob]
    unfold aggregateStatus
    by_cases h1 : outcomes.all (fun o => o = AdapterOutcome.fetchFailure) = true
    · simp [h1]
    · by_cases h2 : outcomes.any (fun o => o = AdapterOutcome.fetchFailure) = true
      · simp [h1, h2]
      · simp [h1, h2]
  · simp [runNowSimultaneous, runNow]

/-- C8 witness: a manual trigger arriving while the lock is held is
coalesced into a `skipped` outcome with the state untouched. -/
theorem runNow_single_flight_witness :
    runNow { lockHeld := true } "manual" [] =
      ({ reason := "manual", status := RunStatus.skipped },
       { lockHeld := true }) :=
  (runNow_single_flight "scheduled" "manual" []).1 { lockHeld := true } rfl

end TermInsurance
